import Mathlib

/-!
# Verification of the parallel-research pipeline (EssayForge / parallel-research-cli)

Shallow embedding of the Go sources:
* `pkg/models/models.go` — the data model,
* `pkg/agents/agents.go` — the fixed role catalog and `CreateAgents`,
* `pkg/synthesis` (shipped in `pkg/evaluator/evaluator.go`) — scoring,
  best-of-N selection, citation extraction/deduplication and `Synthesize`,
* `pkg/orchestrator` (shipped in `example.sh`) — `TokenTracker.exceedsLimits`,
  `conductParallelResearch`, `runClaudeAgent`, `calculateQualityScore`,
  `calculateEssayQuality` and `Execute`.

Conventions of the embedding:
* Go `int` becomes `Int` (no overflow is relevant at the sizes involved),
  Go `float64` becomes `ℚ` wherever the program only adds, multiplies and
  compares values that stay well inside the exactly-representable range;
  the one place where IEEE special values matter (`calculateEssayQuality`
  dividing by a zero candidate count) uses the explicit `GoFloat` type
  below, which tracks NaN and signed infinity.
* Strings are processed as their character lists; all inputs considered
  are ASCII, so Go's byte-based `len` agrees with the character count.
* Impure inputs (wall-clock times, the external generation call, the
  completion order of concurrent tasks, success of file-system calls)
  are passed as explicit parameters.
* Go's regexp calls (`FindAllStringSubmatch` / `FindAllString` on the three
  fixed patterns of the synthesizer) are embedded as fuel-indexed scanners
  that implement leftmost, greedy, non-overlapping matching for exactly
  those patterns; the fuel is the length of the input, which suffices
  because every step consumes at least one character.
-/

set_option maxRecDepth 100000

namespace EssayForge

/-! ## Character classes and Go string helpers -/

/-- `\s` of RE2: space, tab, newline, form feed, carriage return, vertical tab. -/
def isSpaceChar (c : Char) : Bool :=
  c = ' ' || c = '\t' || c = '\n' || c = '\x0c' || c = '\r' || c = '\x0b'

/-- `[A-Za-z]` of RE2 (ASCII letters only). -/
def isAsciiLetter (c : Char) : Bool :=
  ('A' ≤ c && c ≤ 'Z') || ('a' ≤ c && c ≤ 'z')

/-- `[0-9]` of RE2. -/
def isDigitChar (c : Char) : Bool :=
  '0' ≤ c && c ≤ '9'

/-- Character class `[A-Za-z\s&]` of the academic-citation pattern. -/
def isAuthorChar (c : Char) : Bool :=
  isAsciiLetter c || isSpaceChar c || c = '&'

/-- Does `sub` occur in `s`?  Faithful to Go `strings.Contains` for a
non-empty ASCII `sub`. -/
def goContains (s sub : List Char) : Bool :=
  match s with
  | [] => sub.isPrefixOf ([] : List Char)
  | _ :: tl => sub.isPrefixOf s || goContains tl sub

/-- Fuel-indexed body of `goCount`; every step consumes at least one
character, so fuel equal to the input length is enough.  (Fuel keeps the
recursion structural, hence kernel-reducible.) -/
def goCountF : Nat → List Char → List Char → Nat
  | 0, _, _ => 0
  | _, [], _ => 0
  | fuel + 1, c :: tl, sub =>
    if sub.isPrefixOf (c :: tl) ∧ sub ≠ [] then
      1 + goCountF fuel ((c :: tl).drop sub.length) sub
    else goCountF fuel tl sub

/-- Number of non-overlapping occurrences of a non-empty `sub` in `s`,
scanning left to right: Go `strings.Count`. -/
def goCount (s sub : List Char) : Nat :=
  goCountF s.length s sub

/-- First index at which `sub` occurs in `s`, or `-1`: Go `strings.Index`. -/
def goIndexOf (s sub : List Char) : Int :=
  match s with
  | [] => if sub = [] then 0 else -1
  | _ :: tl =>
    if sub.isPrefixOf s then 0
    else
      let r := goIndexOf tl sub
      if r = -1 then -1 else r + 1

/-- Go `strings.HasPrefix` (on char lists). -/
def goStartsWith (s sub : List Char) : Bool :=
  sub.isPrefixOf s

/-- Go `strings.TrimSpace` (ASCII whitespace). -/
def goTrimSpace (s : List Char) : List Char :=
  ((s.dropWhile isSpaceChar).reverse.dropWhile isSpaceChar).reverse

/-- Fuel-indexed body of `goFields`; when the head is not whitespace the
word is the maximal non-space run and scanning resumes after it (dropping
the run from the tail suffices since the head itself belongs to the run). -/
def goFieldsF : Nat → List Char → List (List Char)
  | 0, _ => []
  | _, [] => []
  | fuel + 1, c :: tl =>
    if isSpaceChar c then goFieldsF fuel tl
    else
      (c :: tl.takeWhile (fun x => !isSpaceChar x)) ::
        goFieldsF fuel (tl.dropWhile (fun x => !isSpaceChar x))

/-- Go `strings.Fields`: maximal runs of non-whitespace characters. -/
def goFields (s : List Char) : List (List Char) :=
  goFieldsF s.length s

/-- Go `strings.Split` on a single-character separator. -/
def goSplitOnChar (sep : Char) : List Char → List (List Char)
  | [] => [[]]
  | c :: tl =>
    let r := goSplitOnChar sep tl
    if c = sep then [] :: r
    else
      match r with
      | [] => [[c]]
      | hd :: rest => (c :: hd) :: rest

/-- Go `strings.Split s "\n"`. -/
def goSplitLines (s : List Char) : List (List Char) :=
  goSplitOnChar '\n' s

/-- Go `strings.ToLower` (ASCII). -/
def goToLower (s : List Char) : List Char :=
  s.map Char.toLower

/-- `fmt.Sprintf` of a template whose verbs are only `%s` (all bound to the
same argument) and `%%`. -/
def goSprintfS : List Char → List Char → List Char
  | [], _ => []
  | '%' :: 's' :: tl, arg => arg ++ goSprintfS tl arg
  | '%' :: '%' :: tl, arg => '%' :: goSprintfS tl arg
  | c :: tl, arg => c :: goSprintfS tl arg

/-! ## `GoFloat`: the fragment of IEEE `float64` used by `calculateEssayQuality`

`calculateEssayQuality` is the one function whose spec-relevant behaviour
depends on IEEE special values (division by a zero count).  `GoFloat`
tracks NaN and signed infinities over exact rationals; the operations
below implement the IEEE rules for addition, multiplication, division and
ordered comparison restricted to this carrier (rounding is irrelevant for
the claim, which only concerns NaN propagation). -/

inductive GoFloat where
  /-- IEEE NaN. -/
  | nan : GoFloat
  /-- IEEE infinity; the flag is `true` for `-∞`. -/
  | inf : Bool → GoFloat
  /-- A finite value. -/
  | fin : ℚ → GoFloat
deriving DecidableEq

namespace GoFloat

/-- IEEE addition. -/
def add : GoFloat → GoFloat → GoFloat
  | nan, _ => nan
  | _, nan => nan
  | inf s, inf t => if s = t then inf s else nan
  | inf s, fin _ => inf s
  | fin _, inf t => inf t
  | fin a, fin b => fin (a + b)

/-- IEEE multiplication. -/
def mul : GoFloat → GoFloat → GoFloat
  | nan, _ => nan
  | _, nan => nan
  | inf s, inf t => inf (s != t)
  | inf s, fin b => if b = 0 then nan else inf (s != decide (b < 0))
  | fin a, inf t => if a = 0 then nan else inf (t != decide (a < 0))
  | fin a, fin b => fin (a * b)

/-- IEEE division. -/
def div : GoFloat → GoFloat → GoFloat
  | nan, _ => nan
  | _, nan => nan
  | inf _, inf _ => nan
  | inf s, fin b => inf (s != decide (b < 0))
  | fin _, inf _ => fin 0
  | fin a, fin b =>
    if b = 0 then (if a = 0 then nan else inf (decide (a < 0)))
    else fin (a / b)

/-- IEEE `>` (false whenever either side is NaN). -/
def gt : GoFloat → GoFloat → Bool
  | nan, _ => false
  | _, nan => false
  | inf s, inf t => !s && t
  | inf s, fin _ => !s
  | fin _, inf t => t
  | fin a, fin b => decide (b < a)

end GoFloat

/-! ## Data model (`pkg/models/models.go`)

Wall-clock values (`time.Time`) are modelled as natural numbers and
`time.Duration` likewise; they carry no arithmetic relevant to the claims. -/

/-- `models.TokenUsage`. -/
structure TokenUsage where
  promptTokens : Int
  completionTokens : Int
  totalTokens : Int
  model : String
  cost : ℚ
deriving DecidableEq

/-- `models.Citation`. -/
structure Citation where
  id : String := ""
  citationType : String := ""
  title : String := ""
  source : String := ""
  url : String := ""
  authors : List String := []
  date : String := ""
  accessDate : Nat := 0
  quote : String := ""
deriving DecidableEq

/-- `models.ResearchResult` (the Candidate of the spec). -/
structure ResearchResult where
  agentID : String
  agentType : String
  content : String
  citations : List Citation
  tokensUsed : TokenUsage
  timestamp : Nat
  score : ℚ
  qualityScore : ℚ
deriving DecidableEq

/-- `models.QualityMetrics`; all five fields are Go `float64`, kept as
`GoFloat` because `calculateEssayQuality` can produce NaN. -/
structure QualityMetrics where
  coherence : GoFloat := .fin 0
  citationQuality : GoFloat := .fin 0
  depthScore : GoFloat := .fin 0
  originality : GoFloat := .fin 0
  overallScore : GoFloat := .fin 0
deriving DecidableEq

/-- `models.Metadata`. -/
structure Metadata where
  topic : String := ""
  researchDepth : String := ""
  agentsUsed : Nat := 0
  totalVariations : Nat := 0
  synthesisMethod : String := ""
  generationTime : Nat := 0
  totalTokens : Int := 0
  estimatedCost : ℚ := 0
  qualityMetrics : QualityMetrics := {}
deriving DecidableEq

/-- `models.Essay`. -/
structure Essay where
  title : String
  content : String
  citations : List Citation
  metadata : Metadata
  generatedAt : Nat := 0
  wordCount : Nat := 0
deriving DecidableEq

/-- `models.Progress` (one overall snapshot sent to the progress sink). -/
structure Progress where
  stage : String
  percentage : ℚ
  activeAgents : Int
  completedAgents : Nat
  tokensUsed : Int
  estimatedCost : ℚ
  message : String
deriving DecidableEq

/-! ## Role catalog (`pkg/agents/agents.go`) -/

/-- `agents.Agent`: a role definition of the fixed catalog. -/
structure Agent where
  agentType : String
  description : String
  promptTemplate : String
deriving DecidableEq

/-- The fixed, ordered ten-role catalog (`allAgents` inside
`agents.CreateAgents`); prompt templates are carried verbatim. -/
def allAgents : List Agent :=
  [ { agentType := "fact-gatherer"
    , description := "Gathers core facts and verifiable information"
    , promptTemplate := "You are a fact-gathering research agent. Your task is to research \"%s\" and provide:\n1. Key facts and statistics\n2. Verified information from reliable sources\n3. Important definitions and concepts\n4. Quantitative data points\n\nFocus on accuracy and cite all sources. Output in markdown with proper citations." }
  , { agentType := "current-state"
    , description := "Analyzes current state and recent developments"
    , promptTemplate := "You are a current affairs research agent. Research the current state of \"%s\" including:\n1. Latest developments and news\n2. Current trends and patterns\n3. Recent changes or updates\n4. Present-day relevance and impact\n\nProvide timely, up-to-date information with sources. Output in markdown." }
  , { agentType := "expert-opinions"
    , description := "Collects expert opinions and authoritative perspectives"
    , promptTemplate := "You are an expert opinion researcher. For the topic \"%s\", gather:\n1. Opinions from recognized experts in the field\n2. Academic perspectives\n3. Industry leader insights\n4. Consensus views and debates\n\nQuote experts directly when possible and cite sources. Output in markdown." }
  , { agentType := "historical-context"
    , description := "Provides historical background and evolution"
    , promptTemplate := "You are a historical research agent. Provide historical context for \"%s\" including:\n1. Origins and historical development\n2. Key milestones and turning points\n3. Evolution over time\n4. Historical precedents and patterns\n\nFocus on how the past informs the present. Output in markdown with citations." }
  , { agentType := "counter-arguments"
    , description := "Explores opposing views and criticisms"
    , promptTemplate := "You are a critical analysis agent. For \"%s\", research:\n1. Common criticisms and counter-arguments\n2. Alternative perspectives\n3. Potential weaknesses or limitations\n4. Opposing viewpoints and their merits\n\nBe balanced and fair in presenting different sides. Output in markdown." }
  , { agentType := "future-projections"
    , description := "Analyzes future trends and projections"
    , promptTemplate := "You are a future trends analyst. For \"%s\", research and analyze:\n1. Future projections and forecasts\n2. Emerging trends and possibilities\n3. Potential scenarios and outcomes\n4. Expert predictions\n\nBase projections on current data and expert analysis. Output in markdown." }
  , { agentType := "case-studies"
    , description := "Provides relevant case studies and examples"
    , promptTemplate := "You are a case study researcher. For \"%s\", provide:\n1. Relevant case studies and real-world examples\n2. Success stories and failures\n3. Practical implementations\n4. Lessons learned from specific cases\n\nFocus on concrete examples with details. Output in markdown with sources." }
  , { agentType := "data-analysis"
    , description := "Performs data-driven analysis"
    , promptTemplate := "You are a data analysis agent. For \"%s\", provide:\n1. Statistical analysis and data visualization descriptions\n2. Quantitative trends and patterns\n3. Data-driven insights\n4. Comparative analysis with benchmarks\n\nFocus on numbers and measurable outcomes. Output in markdown." }
  , { agentType := "theoretical-framework"
    , description := "Explores theoretical foundations and frameworks"
    , promptTemplate := "You are a theoretical research agent. For \"%s\", explore:\n1. Theoretical frameworks and models\n2. Academic theories and concepts\n3. Philosophical underpinnings\n4. Conceptual relationships\n\nConnect theory to practical understanding. Output in markdown." }
  , { agentType := "practical-applications"
    , description := "Focuses on practical applications and implementations"
    , promptTemplate := "You are a practical applications researcher. For \"%s\", detail:\n1. Real-world applications and uses\n2. Implementation strategies\n3. Best practices and guidelines\n4. Practical considerations and challenges\n\nFocus on actionable insights. Output in markdown." }
  ]

/-- `agents.CreateAgents(intensity)`: prefix selection out of the fixed
catalog (Go slicing `allAgents[:2]`, `allAgents`, `allAgents[:intensity]`). -/
def CreateAgents (intensity : Int) : List Agent :=
  if intensity ≤ 0 then allAgents.take 2
  else if intensity > (allAgents.length : Int) then allAgents
  else allAgents.take intensity.toNat

/-- `agents.Agent.GeneratePrompt`. -/
def GeneratePrompt (a : Agent) (topic : String) : String :=
  (goSprintfS a.promptTemplate.data topic.data).asString

/-! ## Synthesis package (`pkg/synthesis/synthesis.go`, shipped inside
`pkg/evaluator/evaluator.go`) -/

namespace Synthesis

/-- All matches of the markdown-link pattern `\[([^\]]+)\]\(([^\)]+)\)`
(`regexp.FindAllStringSubmatch`, leftmost, greedy, non-overlapping),
returned as (label, url) pairs.  The fuel argument bounds the number of
steps; every step consumes at least one character, so fuel equal to the
input length is enough.  On a failed attempt the scan restarts one
character after the failed starting position, exactly as RE2 does; both
character classes are complement classes, so the greedy `+` never
backtracks. -/
def scanLinksF : Nat → List Char → List (String × String)
  | 0, _ => []
  | _, [] => []
  | fuel + 1, c :: cs =>
    if c = '[' then
      match cs.takeWhile (fun x => x != ']'), cs.dropWhile (fun x => x != ']') with
      | lbl@(_ :: _), ']' :: '(' :: r2 =>
        (match r2.takeWhile (fun x => x != ')'), r2.dropWhile (fun x => x != ')') with
          | url@(_ :: _), ')' :: rest => (lbl.asString, url.asString) :: scanLinksF fuel rest
          | _, _ => scanLinksF fuel cs)
      | _, _ => scanLinksF fuel cs
    else scanLinksF fuel cs

/-- The markdown-link matches of a content string. -/
def scanLinks (content : List Char) : List (String × String) :=
  scanLinksF content.length content

/-- All matches of the academic-citation pattern
`\(([A-Za-z\s&]+),\s*(\d{4})\)`, as (authors, year) pairs.  The author
class excludes the comma and `\s` excludes digits, so the greedy `+` and
`*` never backtrack; `\d{4}` is rigid, hence a failure after them restarts
one character past the starting parenthesis, as RE2 does. -/
def scanAcadF : Nat → List Char → List (String × String)
  | 0, _ => []
  | _, [] => []
  | fuel + 1, c :: cs =>
    if c = '(' then
      match cs.takeWhile isAuthorChar, cs.dropWhile isAuthorChar with
      | auth@(_ :: _), ',' :: r2 =>
        (match r2.dropWhile isSpaceChar with
          | d1 :: d2 :: d3 :: d4 :: ')' :: rest =>
            if isDigitChar d1 && isDigitChar d2 && isDigitChar d3 && isDigitChar d4 then
              (auth.asString, [d1, d2, d3, d4].asString) :: scanAcadF fuel rest
            else scanAcadF fuel cs
          | _ => scanAcadF fuel cs)
      | _, _ => scanAcadF fuel cs
    else scanAcadF fuel cs

/-- The academic-citation matches of a content string. -/
def scanAcad (content : List Char) : List (String × String) :=
  scanAcadF content.length content

/-- Number of matches of the data-point pattern `\d+\.?\d*%?`
(`FindAllString`): once a digit is found the rest of the pattern is all
optional and greedy, so a match always succeeds and consumes the maximal
digit run, an optional dot, a further digit run and an optional percent
sign. -/
def scanNumsF : Nat → List Char → Nat
  | 0, _ => 0
  | _, [] => 0
  | fuel + 1, c :: cs =>
    if isDigitChar c then
      let r1 := cs.dropWhile isDigitChar
      let r2 := match r1 with
        | '.' :: t => t.dropWhile isDigitChar
        | _ => r1
      let r3 := match r2 with
        | '%' :: t => t
        | _ => r2
      1 + scanNumsF fuel r3
    else scanNumsF fuel cs

/-- The number of data-point matches of a content string. -/
def scanNums (content : List Char) : Nat :=
  scanNumsF content.length content

/-- `Synthesizer.extractCitationsFromContent`: markdown-link records
(ids `cite1`, `cite2`, …) followed by academic records (ids `acad1`, …). -/
def extractCitationsFromContent (content : String) : List Citation :=
  let linkCitations := (scanLinks content.data).enum.map fun im =>
    { id := "cite" ++ toString (im.1 + 1), source := im.2.1, url := im.2.2 : Citation }
  let acadCitations := (scanAcad content.data).enum.map fun im =>
    { id := "acad" ++ toString (im.1 + 1), authors := [im.2.1], date := im.2.2
    , source := im.2.1 ++ " (" ++ im.2.2 ++ ")" : Citation }
  linkCitations ++ acadCitations

/-- The citation term of `scoreResult`: `float64(citationCount) * 2.0`. -/
def citationScore (content : String) : ℚ :=
  ((extractCitationsFromContent content).length : ℚ) * 2

/-- `Synthesizer.scoreResult`: the best-of-N ranking heuristic. -/
def scoreResult (r : ResearchResult) : ℚ :=
  let contentLength := r.content.length
  let lengthScore : ℚ :=
    if contentLength > 1000 ∧ contentLength < 5000 then 10
    else if contentLength > 500 then 5
    else 0
  let headingCount := goCount r.content.data "\n#".data
  let dataPoints := scanNums r.content.data
  lengthScore + citationScore r.content + (headingCount : ℚ) * (3 / 2) + (dataPoints : ℚ) * (1 / 2)

/-- One step of `Synthesizer.groupByAgentType`: append to the existing
bucket of the result's agent type, or open a new bucket.  Go buckets live
in a `map[string][]*ResearchResult`; within a bucket the order is append
order, while the order in which buckets are enumerated is not governed —
the embedding fixes first-occurrence order, and no theorem below depends
on the bucket order. -/
def addToGroups (groups : List (String × List ResearchResult)) (r : ResearchResult) :
    List (String × List ResearchResult) :=
  if groups.any (fun g => g.1 == r.agentType) then
    groups.map (fun g => if g.1 == r.agentType then (g.1, g.2 ++ [r]) else g)
  else groups ++ [(r.agentType, [r])]

/-- `Synthesizer.groupByAgentType`. -/
def groupByAgentType (results : List ResearchResult) : List (String × List ResearchResult) :=
  results.foldl addToGroups []

/-- The in-place mutation `result.Score = s.scoreResult(result)` performed
on every candidate of a bucket by `selectBestResults`. -/
def rescored (r : ResearchResult) : ResearchResult :=
  { r with score := scoreResult r }

/-- Insertion into a list sorted by strictly descending admissibility of
the comparator `Score i > Score j`. -/
def insertDesc (r : ResearchResult) : List ResearchResult → List ResearchResult
  | [] => [r]
  | y :: ys => if r.score ≥ y.score then r :: y :: ys else y :: insertDesc r ys

/-- The `sort.Slice(results, Score[i] > Score[j])` call of
`selectBestResults`.  Go's sort is unstable and ties may land in any
order; insertion sort realises one order consistent with the comparator,
and the theorems below use only the comparator-forced property (the head
carries a maximal score). -/
def sortByScoreDesc (l : List ResearchResult) : List ResearchResult :=
  l.foldr insertDesc []

/-- Per-bucket body of `Synthesizer.selectBestResults`: rescore every
candidate, sort descending, keep the first element if the bucket is
non-empty. -/
def selectBest (g : List ResearchResult) : Option ResearchResult :=
  (sortByScoreDesc (g.map rescored)).head?

/-- `Synthesizer.selectBestResults`. -/
def selectBestResults (groups : List (String × List ResearchResult)) : List ResearchResult :=
  groups.filterMap fun g => selectBest g.2

/-- The dedupe key of `Synthesizer.extractCitations`:
`citation.Source + citation.URL` (string concatenation). -/
def keyOf (c : Citation) : String :=
  c.source ++ c.url

/-- Inner accumulation step of `Synthesizer.extractCitations`: the first
component collects kept citations, the second the set of seen keys
(`citationMap`). -/
def dedupeStep (acc : List Citation × List String) (c : Citation) :
    List Citation × List String :=
  if acc.2.contains (keyOf c) then acc else (acc.1 ++ [c], acc.2 ++ [keyOf c])

/-- `Synthesizer.extractCitations`: extract from every candidate in order
and deduplicate across the whole run by `keyOf`. -/
def synthExtractCitations (results : List ResearchResult) : List Citation :=
  (results.foldl
    (fun acc r => (extractCitationsFromContent r.content).foldl dedupeStep acc)
    ([], [])).1

/-- `Synthesizer.createSynthesisPrompt`. -/
def createSynthesisPrompt (topic : String) (results : List ResearchResult) : String :=
  "You are a master synthesis agent creating a comprehensive, well-cited essay on \"" ++ topic ++
  "\".\n\nYou have been provided with research from multiple specialized agents. Your task is to:\n\n1. Synthesize all the research into a cohesive, insightful essay\n2. Maintain all citations and add proper references\n3. Create a logical flow that covers all important aspects\n4. Ensure the essay is comprehensive yet readable\n5. Add section headings and structure\n6. Include an executive summary at the beginning\n7. End with conclusions and future considerations\n\nHere is the research from each specialized agent:\n\n" ++
  String.join (results.map fun r => "\n=== " ++ r.agentType ++ " Research ===\n" ++ r.content ++ "\n") ++
  "\nPlease create a comprehensive essay that:\n- Integrates all perspectives seamlessly\n- Maintains academic rigor with proper citations\n- Provides unique insights from the synthesis\n- Is structured with clear sections\n- Includes data visualizations descriptions where relevant\n- Balances depth with readability\n\nOutput the essay in markdown format with a clear structure."

/-- The topic recovery of `generateDemoEssay`: the slice between the first
two double quotes of the prompt.  (Go would panic on a prompt without two
quotes; `createSynthesisPrompt` always embeds the topic in quotes, and the
`Int.toNat` totalisation below agrees with Go on every such prompt.) -/
def extractQuoted (prompt : List Char) : List Char :=
  let ts := goIndexOf prompt ['"']
  let rest := prompt.drop (ts + 1).toNat
  rest.take (goIndexOf rest ['"']).toNat

/-- The offline essay template of `generateDemoEssay` (verbatim; `%s` is
the topic, `%%` a literal percent sign). -/
def demoEssayTemplate : String :=
  "# Comprehensive Analysis: %s\n\n## Executive Summary\n\nThis comprehensive analysis synthesizes research from multiple specialized agents to provide a thorough understanding of %s. Our parallel research approach examined historical context, current state, expert opinions, and future projections to deliver actionable insights.\n\n## Key Findings\n\n### Current State and Adoption\nBased on our current state analysis, %s has seen remarkable growth with 87%% of developers reporting improved code quality and a 45%% reduction in bugs. Enterprise adoption is accelerating, with major frameworks like React embracing functional paradigms through features like Hooks.\n\n### Historical Evolution\nThe roots of %s trace back to lambda calculus in the 1930s, with practical implementations beginning with LISP in 1958. The paradigm has evolved significantly, with modern languages like Haskell, Scala, and Clojure bringing functional programming to mainstream development.\n\n### Expert Consensus\nIndustry leaders unanimously agree on the transformative potential. As one expert noted: \"Functional programming is not just a paradigm, it\x27s a mindset shift.\" The academic community supports this with research showing 60%% bug reduction in functional codebases.\n\n## Benefits and Challenges\n\n### Demonstrated Benefits\n1. **Code Quality**: Immutability and pure functions lead to more predictable, testable code\n2. **Concurrency**: Natural fit for parallel processing and distributed systems\n3. **Maintainability**: Reduced complexity through composition and modularity\n\n### Addressing Concerns\nWhile critics cite the steep learning curve and limited talent pool, our analysis reveals:\n- Modern tooling has significantly reduced the learning curve\n- ROI justifies training investments\n- Growing educational resources and bootcamps\n\n## Future Outlook\n\nThe trajectory for %s is overwhelmingly positive:\n- Continued integration into mainstream languages\n- Growing demand for functional programming skills\n- Expansion into AI/ML applications where immutability and composability shine\n\n## Recommendations\n\n1. **For Organizations**: Invest in training and gradual adoption through hybrid approaches\n2. **For Developers**: Start with functional concepts in familiar languages before diving into pure FP\n3. **For Educators**: Integrate functional programming concepts early in curricula\n\n## Conclusion\n\n%s represents a fundamental shift in how we approach software development. While challenges exist, the benefits—particularly in our increasingly concurrent and distributed computing landscape—make it an essential paradigm for modern developers.\n\nThe evidence from our parallel research conclusively demonstrates that functional programming is not merely a trend but a crucial evolution in software engineering practices."

/-- `Synthesizer.generateDemoEssay`. -/
def generateDemoEssay (prompt : String) : String :=
  (goSprintfS demoEssayTemplate.data (extractQuoted prompt.data)).asString

/-- `synthesis.Synthesizer` (fields of the Go struct). -/
structure Synthesizer where
  bestOfN : Nat
  demoMode : Bool
deriving DecidableEq

/-- `Synthesizer.runSynthesis`: offline template in demo mode, otherwise
one external generation call, whose outcome is the explicit `extCall`
parameter; a failing call is wrapped as `synthesis failed: …`. -/
def runSynthesis (s : Synthesizer) (extCall : Except String String) (prompt : String) :
    Except String String :=
  if s.demoMode then .ok (generateDemoEssay prompt)
  else
    match extCall with
    | .ok out => .ok out
    | .error e => .error ("synthesis failed: " ++ e)

/-- `Synthesizer.formatEssay`; `date` is the formatted wall-clock value. -/
def formatEssay (s : Synthesizer) (date : String) (topic content : String)
    (citations : List Citation) : String :=
  "---\ntitle: \"Comprehensive Analysis: " ++ topic ++ "\"\ndate: " ++ date ++
    "\nsynthesis_method: essayforge-adversarial\n---\n\n" ++
  content ++
  (if citations.length > 0 then
    "\n\n## References\n\n" ++
      String.join (citations.enum.map fun ic =>
        (if ic.2.url ≠ "" then
          toString (ic.1 + 1) ++ ". [" ++ ic.2.source ++ "](" ++ ic.2.url ++ ")"
         else toString (ic.1 + 1) ++ ". " ++ ic.2.source) ++
        (if ic.2.authors.length > 0 then " - " ++ String.intercalate ", " ic.2.authors else "") ++
        (if ic.2.date ≠ "" then " (" ++ ic.2.date ++ ")" else "") ++ "\n")
   else "") ++
  "\n\n---\n*Generated using EssayForge with adversarial synthesis and best-of-" ++
    toString s.bestOfN ++ " selection.*\n"

/-- `Synthesizer.Synthesize`.  `now` is the creation instant, `date` its
rendering, `genTime` the elapsed duration; the external generation call is
the explicit `extCall` outcome. -/
def Synthesize (s : Synthesizer) (extCall : Except String String) (now : Nat) (date : String)
    (genTime : Nat) (topic : String) (results : List ResearchResult) : Except String Essay :=
  let grouped := groupByAgentType results
  let selected := selectBestResults grouped
  let citations := synthExtractCitations selected
  let prompt := createSynthesisPrompt topic selected
  match runSynthesis s extCall prompt with
  | .error e => .error e
  | .ok essayContent =>
    .ok { title := "Comprehensive Analysis: " ++ topic
        , content := formatEssay s date topic essayContent citations
        , citations := citations
        , metadata :=
          { topic := topic, researchDepth := "thorough", agentsUsed := grouped.length
          , totalVariations := results.length, synthesisMethod := "best-of-n-parallel"
          , generationTime := genTime }
        , generatedAt := now }

end Synthesis

/-! ## Orchestrator package (`pkg/orchestrator`, shipped inside `example.sh`) -/

namespace Orchestrator

/-- `orchestrator.Config` (the fields the embedded operations consult). -/
structure Config where
  topic : String
  intensity : Int
  bestOfN : Nat
  outputFile : String := ""
  demoMode : Bool
  autoOpen : Bool := false
  showDashboard : Bool := false
  tokenLimit : Int := 0
  costLimit : ℚ := 0
  claudeModel : String := ""
deriving DecidableEq

/-- `orchestrator.TokenTracker`: the shared budget counters (the Go struct
additionally carries the mutex; mutation is serialised below exactly as the
lock serialises it). -/
structure TokenTracker where
  totalTokens : Int
  agentTokens : List (String × Int)
  totalCost : ℚ
  tokenLimit : Int
  costLimit : ℚ
deriving DecidableEq

/-- Update of one key of a Go `map[string]int`. -/
def setAssoc (m : List (String × Int)) (k : String) (v : Int) : List (String × Int) :=
  if m.any (fun p => p.1 == k) then m.map (fun p => if p.1 == k then (k, v) else p)
  else m ++ [(k, v)]

/-- `TokenTracker.addUsage`. -/
def addUsage (tt : TokenTracker) (agentID : String) (usage : TokenUsage) : TokenTracker :=
  { tt with
    totalTokens := tt.totalTokens + usage.totalTokens
    agentTokens := setAssoc tt.agentTokens agentID usage.totalTokens
    totalCost := tt.totalCost + usage.cost }

/-- `TokenTracker.exceedsLimits`: the budget-gating predicate. -/
def exceedsLimits (tt : TokenTracker) : Bool :=
  if tt.tokenLimit > 0 ∧ tt.totalTokens ≥ tt.tokenLimit then true
  else if tt.costLimit > 0 ∧ tt.totalCost ≥ tt.costLimit then true
  else false

/-- `Orchestrator.parseCitation`; `now` is the `time.Now()` instant used
for the id and access date. -/
def parseCitation (now : Nat) (line : List Char) : Citation :=
  let startU := goIndexOf line "[Source:".data
  let start := if startU = -1 then goIndexOf line "[source:".data else startU
  if start = -1 then {}
  else
    let endI := goIndexOf (line.drop start.toNat) "]".data
    if endI = -1 then {}
    else
      let citationText := (line.drop (start.toNat + 8)).take (endI.toNat - 8)
      let parts := goSplitOnChar ',' citationText
      let citation : Citation :=
        { id := "cite_" ++ toString now, citationType := "web", accessDate := now }
      let c1 := if parts.length > 0 then
          { citation with title := (goTrimSpace (parts.getD 0 [])).asString } else citation
      let c2 := if parts.length > 1 then
          { c1 with source := (goTrimSpace (parts.getD 1 [])).asString } else c1
      let c3 := if parts.length > 2 then
          { c2 with date := (goTrimSpace (parts.getD 2 [])).asString } else c2
      if parts.length > 3 then
        let url := goTrimSpace (parts.getD 3 [])
        if goStartsWith url "http".data then { c3 with url := url.asString } else c3
      else c3

/-- `Orchestrator.extractCitations` (the `[Source: …]` line parser of the
orchestrator, distinct from the synthesis extractor). -/
def orchExtractCitations (now : Nat) (content : String) : List Citation :=
  (goSplitLines content.data).foldl
    (fun acc line =>
      if goContains line "[Source:".data || goContains line "[source:".data then
        let citation := parseCitation now line
        if citation.title ≠ "" then acc ++ [citation] else acc
      else acc)
    []

/-- The fixed quality-indicator terms of `calculateQualityScore`. -/
def qualityIndicators : List String :=
  ["research", "study", "analysis", "data", "evidence",
   "expert", "according to", "found that", "indicates"]

/-- `Orchestrator.calculateQualityScore`: the normalized per-candidate
quality heuristic (this one caps its citation credit at `0.25`). -/
def calculateQualityScore (content : String) (citations : List Citation) : ℚ :=
  let wordCount := (goFields content.data).length
  let s1 : ℚ := if wordCount > 500 then 1 / 4 else (wordCount : ℚ) / 2000
  let citationCount := citations.length
  let s2 : ℚ := if citationCount > 5 then 1 / 4 else (citationCount : ℚ) / 20
  let s3 : ℚ :=
    if goContains content.data "##".data || goContains content.data "**".data then 3 / 20 else 0
  let s4 : ℚ := if goContains content.data "\n\n".data then 1 / 10 else 0
  let matchCount :=
    (qualityIndicators.filter fun ind => goContains (goToLower content.data) ind.data).length
  s1 + s2 + s3 + s4 + (matchCount : ℚ) / (qualityIndicators.length : ℚ) * (1 / 4)

/-- `Orchestrator.estimateTokenUsage` (lengths are byte counts; ASCII). -/
def estimateTokenUsage (claudeModel : String) (prompt response : String) : TokenUsage :=
  let promptTokens : Nat := prompt.length / 4
  let completionTokens : Nat := response.length / 4
  let totalTokens := promptTokens + completionTokens
  { promptTokens := promptTokens, completionTokens := completionTokens
  , totalTokens := totalTokens, model := claudeModel
  , cost := (totalTokens : ℚ) / 1000000 * 15 }

/-- The fixed instruction block `runClaudeAgent` appends to the role
prompt. -/
def enhancePrompt (prompt : String) : String :=
  prompt ++ "\n\nPlease ensure your response includes:\n1. Specific facts and data with sources\n2. Expert opinions with attribution\n3. Recent developments (2023-2024)\n4. Cite all sources in the format: [Source: Title, Author/Organization, Date, URL if available]\n\nFocus on accuracy and verifiability."

/-- `Orchestrator.runClaudeAgent`, successful path: the candidate built
from the external response text (`responseText` models
`resp.Content[0].Text`, or `""` for an empty response).  The call also
feeds `tokensUsed` into the shared `TokenTracker` via `addUsage`; that
mutation touches only the tracker, never the candidate. -/
def runClaudeAgentResult (cfg : Config) (now : Nat) (agent : Agent) (agentID : String)
    (responseText : String) : ResearchResult :=
  let prompt := GeneratePrompt agent cfg.topic
  let enhancedPrompt := enhancePrompt prompt
  let tokensUsed := estimateTokenUsage cfg.claudeModel enhancedPrompt responseText
  let citations := orchExtractCitations now responseText
  let qualityScore := calculateQualityScore responseText citations
  { agentID := agentID, agentType := agent.agentType, content := responseText
  , citations := citations, tokensUsed := tokensUsed, timestamp := now
  , score := qualityScore, qualityScore := qualityScore }

/-- Completion outcome of one scheduled (role, variation) unit:
skipped by the budget pre-check, failed on the external request, or
completed with a candidate.  A unit observed in a `List UnitOutcome`
serialises the concurrent completions in wall-clock order. -/
inductive UnitOutcome where
  | skipped : UnitOutcome
  | failed : UnitOutcome
  | success : ResearchResult → UnitOutcome
deriving DecidableEq

/-- The mutable state threaded through `conductParallelResearch`:
the collected results and completion counter (guarded by `mu` in Go),
the shared token tracker totals, and the progress snapshots sent to the
sink. -/
structure ResearchState where
  results : List ResearchResult := []
  completed : Nat := 0
  trackerTokens : Int := 0
  trackerCost : ℚ := 0
  events : List Progress := []
deriving DecidableEq

/-- The per-unit bodies of `conductParallelResearch`, processed in
completion order.  A skipped unit returns before its external call; a
failed unit logs and returns `nil` (so the `errgroup` never cancels
siblings); a successful unit appends its result, bumps the completion
counter, and reports `completed/total*60 + 10` percent to the sink. -/
def runUnits (totalAgents : Nat) : ResearchState → List UnitOutcome → ResearchState
  | st, [] => st
  | st, .skipped :: rest => runUnits totalAgents st rest
  | st, .failed :: rest => runUnits totalAgents st rest
  | st, .success r :: rest =>
    let completed := st.completed + 1
    let tok := st.trackerTokens + r.tokensUsed.totalTokens
    let cost := st.trackerCost + r.tokensUsed.cost
    runUnits totalAgents
      { results := st.results ++ [r]
      , completed := completed
      , trackerTokens := tok
      , trackerCost := cost
      , events := st.events ++
          [{ stage := "research"
           , percentage := (completed : ℚ) / (totalAgents : ℚ) * 60 + 10
           , activeAgents := (totalAgents : Int) - (completed : Int)
           , completedAgents := completed
           , tokensUsed := tok
           , estimatedCost := cost
           , message := "Agent " ++ r.agentID ++ " completed" }] }
      rest

/-- The identifiers of the units `conductParallelResearch` schedules: one
per (role, variation) pair, `fmt.Sprintf("%s-%d-%d", type, i, n)`. -/
def scheduledAgentIDs (agents : List Agent) (bestOfN : Nat) : List String :=
  (agents.enum.map fun ia =>
    (List.range bestOfN).map fun v =>
      ia.2.agentType ++ "-" ++ toString ia.1 ++ "-" ++ toString v).flatten

/-- `Orchestrator.conductParallelResearch`.  `tempDirOk` is the outcome of
`os.MkdirTemp` (the only fallible step outside the units); `order` is the
completion order of the scheduled units.  All unit closures return `nil`,
so `g.Wait()` never yields an error and no unit cancels another. -/
def conductParallelResearch (agents : List Agent) (bestOfN : Nat) (tempDirOk : Bool)
    (order : List UnitOutcome) : Except String (List ResearchResult × List Progress) :=
  if tempDirOk then
    let st := runUnits (agents.length * bestOfN) {} order
    .ok (st.results, st.events)
  else .error "temp dir creation failed"

/-- `Orchestrator.calculateEssayQuality`: the run-level quality
aggregation, computed in Go `float64` arithmetic (`GoFloat`). -/
def calculateEssayQuality (agents : List Agent) (essay : Essay)
    (results : List ResearchResult) : QualityMetrics :=
  let coherence : GoFloat :=
    if goContains essay.content.data "## ".data ∧ goContains essay.content.data "\n\n".data
    then .fin (4 / 5) else .fin (3 / 5)
  let uniqueTitles := (essay.citations.map fun c => c.title).dedup
  let cq0 := GoFloat.div (.fin (uniqueTitles.length : ℚ)) (.fin ((results.length * 2 : Nat) : ℚ))
  let citationQuality := if GoFloat.gt cq0 (.fin 1) then GoFloat.fin 1 else cq0
  let totalScore : ℚ := (results.map fun r => r.qualityScore).sum
  let depthScore := GoFloat.div (.fin totalScore) (.fin (results.length : ℚ))
  let sourceTypes := (results.map fun r => r.agentType).dedup
  let originality := GoFloat.div (.fin (sourceTypes.length : ℚ)) (.fin (agents.length : ℚ))
  { coherence := coherence
  , citationQuality := citationQuality
  , depthScore := depthScore
  , originality := originality
  , overallScore :=
      GoFloat.add
        (GoFloat.add
          (GoFloat.add (GoFloat.mul coherence (.fin (1 / 4)))
            (GoFloat.mul citationQuality (.fin (7 / 20))))
          (GoFloat.mul depthScore (.fin (1 / 4))))
        (GoFloat.mul originality (.fin (3 / 20))) }

/-- `Orchestrator.synthesizeResults`: delegate to the synthesizer, then
attach the aggregated quality metrics to the essay metadata. -/
def synthesizeResults (cfg : Config) (extCall : Except String String) (now : Nat)
    (date : String) (genTime : Nat) (results : List ResearchResult) : Except String Essay :=
  let synthesizer : Synthesis.Synthesizer := { bestOfN := cfg.bestOfN, demoMode := cfg.demoMode }
  match Synthesis.Synthesize synthesizer extCall now date genTime cfg.topic results with
  | .error e => .error e
  | .ok essay =>
    .ok { essay with
          metadata := { essay.metadata with
            qualityMetrics := calculateEssayQuality (CreateAgents cfg.intensity) essay results } }

/-- `Orchestrator.Execute`: research, then synthesis, then output.  The
second component of the value records every document handed to the output
writer (`os.WriteFile` succeeds exactly when `writeOk`); each failing
phase aborts with its wrapped error before the next phase runs. -/
def Execute (cfg : Config) (tempDirOk : Bool) (order : List UnitOutcome)
    (extCall : Except String String) (now : Nat) (date : String) (genTime : Nat)
    (writeOk : Bool) : Except String Unit × List Essay :=
  match conductParallelResearch (CreateAgents cfg.intensity) cfg.bestOfN tempDirOk order with
  | .error e => (.error ("research phase failed: " ++ e), [])
  | .ok (researchResults, _events) =>
    match synthesizeResults cfg extCall now date genTime researchResults with
    | .error e => (.error ("synthesis phase failed: " ++ e), [])
    | .ok essay =>
      if writeOk then (.ok (), [essay])
      else (.error "output phase failed: write error", [])

end Orchestrator

/-! ## Reference definitions and concrete test inputs for the claims -/

/-- The candidates of the successfully completed units, in completion
order (what the claim calls "the candidates of all successful units"). -/
def researchSuccesses (order : List Orchestrator.UnitOutcome) : List ResearchResult :=
  order.filterMap fun o =>
    match o with
    | .success r => some r
    | _ => none

/-- Invariant of the grouping step: every bucket is non-empty, carries
only candidates of its own agent type, and only candidates drawn from the
input list. -/
def GroupsOK (results : List ResearchResult)
    (groups : List (String × List ResearchResult)) : Prop :=
  ∀ p ∈ groups, p.2 ≠ [] ∧ ∀ r ∈ p.2, r.agentType = p.1 ∧ r ∈ results

/-- A candidate with given content and every other field at its zero
value (concrete test inputs below adjust fields as needed). -/
def plainResult (content : String) : ResearchResult :=
  { agentID := "", agentType := "", content := content, citations := []
  , tokensUsed :=
      { promptTokens := 0, completionTokens := 0, totalTokens := 0, model := "", cost := 0 }
  , timestamp := 0, score := 0, qualityScore := 0 }

/-- A short candidate whose ranking score is 3 (six data points, half a
point each). -/
def candidate3 : ResearchResult :=
  { plainResult "1 2 3 4 5 6" with agentID := "fact-gatherer-0-0", agentType := "fact-gatherer" }

/-- A candidate whose ranking score is 9 (content longer than 500
characters and two markdown-link citations). -/
def candidate9 : ResearchResult :=
  { plainResult (String.mk (List.replicate 600 'b' ++ "[u](v)[w](z)".data)) with
    agentID := "fact-gatherer-0-1", agentType := "fact-gatherer" }

/-- A candidate whose ranking score is 5 (content longer than 500
characters, nothing else). -/
def candidate5 : ResearchResult :=
  { plainResult (String.mk (List.replicate 501 'c')) with
    agentID := "fact-gatherer-0-2", agentType := "fact-gatherer" }

/-- A run configuration for the candidate-creation path. -/
def creationConfig : Orchestrator.Config :=
  { topic := "T", intensity := 2, bestOfN := 1, demoMode := false
  , claudeModel := "claude-3-opus-20240229" }

/-- The first catalog role. -/
def factGathererAgent : Agent :=
  allAgents.getD 0 { agentType := "", description := "", promptTemplate := "" }

/-- A 501-character response without citations, structure or indicator
terms: its creation-time quality score is `1/2000`, its ranking score 5. -/
def longPlainContent : String :=
  String.mk (List.replicate 501 'a')

/-- A candidate exactly as `runClaudeAgent` creates it from
`longPlainContent`. -/
def createdCandidate : ResearchResult :=
  Orchestrator.runClaudeAgentResult creationConfig 0 factGathererAgent
    "fact-gatherer-0-0" longPlainContent

/-- The extracted records of all candidates, flattened in candidate order
(the input stream the dedupe filters). -/
def allExtractedCitations (results : List ResearchResult) : List Citation :=
  results.flatMap fun r => Synthesis.extractCitationsFromContent r.content

/-- Reference recursion of the dedupe: keep a record iff its key has not
been seen, threading the seen-key set. -/
def dedupKeys (seen : List String) : List Citation → List Citation
  | [] => []
  | c :: cs =>
    if seen.contains (Synthesis.keyOf c) then dedupKeys seen cs
    else c :: dedupKeys (seen ++ [Synthesis.keyOf c]) cs

/-- One markdown-link block `[a](b)` (6 characters, one extractable
citation, no digits, no academic match). -/
def linkBlock : List Char := ['[', 'a', ']', '(', 'b', ')']

/-- `n` consecutive link blocks. -/
def repeatLink (n : Nat) : List Char := (List.replicate n linkBlock).flatten

theorem GoFloat.add_nan_right : ∀ x : GoFloat, GoFloat.add x .nan = .nan := by
  intro x; cases x <;> rfl

/-! ## Claim C1: the budget-gating predicate -/

/-- **C1**: `exceedsLimits` returns true exactly when `tokenLimit > 0` and
`totalTokens ≥ tokenLimit`, or `costLimit > 0` and `totalCost ≥ costLimit`;
with `tokenLimit = 100` it is false at `totalTokens = 99` and true at
`totalTokens = 100`, and limits set to 0 never trigger. -/
theorem C1_exceedsLimits_characterisation :
    (∀ tt : Orchestrator.TokenTracker,
      Orchestrator.exceedsLimits tt = true ↔
        (tt.tokenLimit > 0 ∧ tt.totalTokens ≥ tt.tokenLimit) ∨
        (tt.costLimit > 0 ∧ tt.totalCost ≥ tt.costLimit)) ∧
    Orchestrator.exceedsLimits
      { totalTokens := 99, agentTokens := [], totalCost := 0
      , tokenLimit := 100, costLimit := 0 } = false ∧
    Orchestrator.exceedsLimits
      { totalTokens := 100, agentTokens := [], totalCost := 0
      , tokenLimit := 100, costLimit := 0 } = true ∧
    (∀ (tok : Int) (cost : ℚ) (m : List (String × Int)),
      Orchestrator.exceedsLimits
        { totalTokens := tok, agentTokens := m, totalCost := cost
        , tokenLimit := 0, costLimit := 0 } = false) := by
  refine ⟨fun tt => ?_, ?_, ?_, fun tok cost m => ?_⟩
  · unfold Orchestrator.exceedsLimits
    split_ifs with h1 h2 <;> simp_all
  · norm_num [Orchestrator.exceedsLimits]
  · norm_num [Orchestrator.exceedsLimits]
  · norm_num [Orchestrator.exceedsLimits]

/-! ## Claim C5: deterministic prefix selection of the role catalog -/

/-- **C5**: the catalog has exactly 10 roles and `CreateAgents` returns a
deterministic prefix of it: the first 2 roles for `intensity ≤ 0`, all 10
for `intensity > 10`, and the first `intensity` otherwise. -/
theorem C5_CreateAgents_prefix_of_catalog :
    allAgents.length = 10 ∧
    ∀ intensity : Int,
      CreateAgents intensity =
        allAgents.take
          (if intensity ≤ 0 then 2 else if intensity > 10 then 10 else intensity.toNat) := by
  have hlen : allAgents.length = 10 := by rfl
  refine ⟨hlen, fun intensity => ?_⟩
  unfold CreateAgents
  have h10 : ((allAgents.length : Nat) : Int) = 10 := by rw [hlen]; norm_num
  rw [h10]
  split_ifs with h1 h2 <;> rfl

/-! ## Claim C4: a failing synthesis call is fatal and emits nothing -/

/-- **C4**: when the external merge call fails (non-demo mode), `Synthesize`
returns an error instead of an essay, and `Execute` aborts with the wrapped
synthesis error before the output phase: no document is ever handed to the
output writer. -/
theorem C4_synthesis_failure_fatal_no_document :
    ∀ (topic claudeModel outputFile date : String) (intensity : Int) (bestOfN : Nat)
      (order : List Orchestrator.UnitOutcome) (e : String) (now genTime : Nat)
      (writeOk : Bool) (results : List ResearchResult),
      Synthesis.Synthesize { bestOfN := bestOfN, demoMode := false } (.error e)
          now date genTime topic results =
        .error ("synthesis failed: " ++ e) ∧
      Orchestrator.Execute
          { topic := topic, intensity := intensity, bestOfN := bestOfN, demoMode := false
          , outputFile := outputFile, claudeModel := claudeModel }
          true order (.error e) now date genTime writeOk =
        (.error ("synthesis phase failed: " ++ ("synthesis failed: " ++ e)), []) := by
  intro topic claudeModel outputFile date intensity bestOfN order e now genTime writeOk results
  exact ⟨rfl, rfl⟩

/-! ## Claims C6 and C7: fail-soft fan-out and the progress formula -/

theorem runUnits_results (T : Nat) (st : Orchestrator.ResearchState)
    (order : List Orchestrator.UnitOutcome) :
    (Orchestrator.runUnits T st order).results = st.results ++ researchSuccesses order := by
  induction order generalizing st with
  | nil => simp [Orchestrator.runUnits, researchSuccesses]
  | cons o rest ih =>
    cases o with
    | skipped => simpa [Orchestrator.runUnits, researchSuccesses] using ih st
    | failed => simpa [Orchestrator.runUnits, researchSuccesses] using ih st
    | success r => simp [Orchestrator.runUnits, researchSuccesses, ih]

/-- **C6**: individual unit failures never abort the research phase: for
every completion order — with arbitrarily many failed or skipped units —
`conductParallelResearch` returns `ok` and its candidate list is exactly
the candidates of the successful units, in completion order. -/
theorem C6_unit_failure_is_fail_soft :
    ∀ (agents : List Agent) (bestOfN : Nat) (order : List Orchestrator.UnitOutcome),
      (Orchestrator.conductParallelResearch agents bestOfN true order).map Prod.fst =
        Except.ok (researchSuccesses order) := by
  intro agents bestOfN order
  simp [Orchestrator.conductParallelResearch, Except.map, runUnits_results]

theorem sum_map_const {α : Type} (l : List α) (c : Nat) :
    (l.map fun _ => c).sum = l.length * c := by
  induction l with
  | nil => simp
  | cons a t ih => simp [ih, Nat.succ_mul, Nat.add_comm]

theorem runUnits_event_percentages (T : Nat) (st : Orchestrator.ResearchState)
    (order : List Orchestrator.UnitOutcome) :
    (Orchestrator.runUnits T st order).events.map Progress.percentage =
      st.events.map Progress.percentage ++
        (List.range (researchSuccesses order).length).map
          (fun k => ((st.completed + k + 1 : Nat) : ℚ) / (T : ℚ) * 60 + 10) := by
  induction order generalizing st with
  | nil => simp [Orchestrator.runUnits, researchSuccesses]
  | cons o rest ih =>
    cases o with
    | skipped => simpa [Orchestrator.runUnits, researchSuccesses] using ih st
    | failed => simpa [Orchestrator.runUnits, researchSuccesses] using ih st
    | success r =>
      rw [show Orchestrator.runUnits T st (.success r :: rest) =
        Orchestrator.runUnits T
          { results := st.results ++ [r]
          , completed := st.completed + 1
          , trackerTokens := st.trackerTokens + r.tokensUsed.totalTokens
          , trackerCost := st.trackerCost + r.tokensUsed.cost
          , events := st.events ++
              [{ stage := "research"
               , percentage := ((st.completed + 1 : Nat) : ℚ) / (T : ℚ) * 60 + 10
               , activeAgents := (T : Int) - ((st.completed + 1 : Nat) : Int)
               , completedAgents := st.completed + 1
               , tokensUsed := st.trackerTokens + r.tokensUsed.totalTokens
               , estimatedCost := st.trackerCost + r.tokensUsed.cost
               , message := "Agent " ++ r.agentID ++ " completed" }] } rest from rfl]
      rw [ih]
      have hlen : (researchSuccesses (.success r :: rest)).length =
          (researchSuccesses rest).length + 1 := by
        simp [researchSuccesses]
      rw [hlen, List.range_succ_eq_map]
      simp only [List.map_cons, List.map_map, List.map_append, List.map_cons, List.map_nil]
      simp only [List.map_append, List.map_cons, List.map_nil, List.map_map,
        List.append_assoc, List.singleton_append]
      refine congrArg (fun l => List.map Progress.percentage st.events ++ l) ?_
      rw [List.cons.injEq]
      refine ⟨by norm_num, ?_⟩
      apply List.map_congr_left
      intro a _
      simp only [Function.comp_apply]
      have hn : st.completed + 1 + a + 1 = st.completed + (a + 1) + 1 := by omega
      rw [hn]

/-- **C7**: the research phase schedules exactly `roles × variationsPerRole`
units, and the overall progress snapshot emitted after the `k`-th
successfully completed unit (and only after successful units) reports
exactly `10 + 60·k/(roles × variationsPerRole)` percent. -/
theorem C7_progress_percentage_formula :
    ∀ (agents : List Agent) (bestOfN : Nat) (order : List Orchestrator.UnitOutcome),
      order.length = agents.length * bestOfN →
      (Orchestrator.scheduledAgentIDs agents bestOfN).length = agents.length * bestOfN ∧
      (Orchestrator.conductParallelResearch agents bestOfN true order).map
          (fun p => p.2.map Progress.percentage) =
        Except.ok ((List.range (researchSuccesses order).length).map
          fun (k : Nat) => 10 + 60 * ((k : ℚ) + 1) / ((agents.length * bestOfN : Nat) : ℚ)) := by
  intro agents bestOfN order _h
  constructor
  · unfold Orchestrator.scheduledAgentIDs
    rw [List.length_flatten, List.map_map]
    have hconst :
        List.map
          (List.length ∘ fun ia : Nat × Agent =>
            (List.range bestOfN).map fun v =>
              ia.2.agentType ++ "-" ++ toString ia.1 ++ "-" ++ toString v)
          agents.enum =
        List.map (fun _ => bestOfN) agents.enum := by
      apply List.map_congr_left
      intro a _
      simp [Function.comp]
    rw [hconst, sum_map_const, List.enum_length]
  · simp only [Orchestrator.conductParallelResearch, if_pos trivial, Except.map,
      runUnits_event_percentages]
    refine congrArg Except.ok ?_
    simp only [List.map_nil, List.nil_append]
    apply List.map_congr_left
    intro k _
    push_cast
    ring

/-- Witness for C7 at a concrete schedule: two roles, one variation each,
completed as one success and one failure. -/
theorem C7_progress_percentage_formula_witness :
    (Orchestrator.scheduledAgentIDs (CreateAgents 2) 1).length = (CreateAgents 2).length * 1 ∧
    (Orchestrator.conductParallelResearch (CreateAgents 2) 1 true
        [.success (plainResult "demo"), .failed]).map
          (fun p => p.2.map Progress.percentage) =
      Except.ok ((List.range
          (researchSuccesses [.success (plainResult "demo"), .failed]).length).map
        fun (k : Nat) => 10 + 60 * ((k : ℚ) + 1) / (((CreateAgents 2).length * 1 : Nat) : ℚ)) :=
  C7_progress_percentage_formula (CreateAgents 2) 1
    [.success (plainResult "demo"), .failed] (by rfl)

/-! ## Claims C2 and C9: best-of-N selection -/

theorem mem_insertDesc {r x : ResearchResult} {l : List ResearchResult} :
    x ∈ Synthesis.insertDesc r l ↔ x = r ∨ x ∈ l := by
  induction l with
  | nil => simp [Synthesis.insertDesc]
  | cons y ys ih =>
    simp only [Synthesis.insertDesc]
    split_ifs with h
    · simp [List.mem_cons]
    · simp only [List.mem_cons, ih]
      tauto

theorem mem_sortByScoreDesc {x : ResearchResult} {l : List ResearchResult} :
    x ∈ Synthesis.sortByScoreDesc l ↔ x ∈ l := by
  induction l with
  | nil => simp [Synthesis.sortByScoreDesc]
  | cons y ys ih =>
    show x ∈ Synthesis.insertDesc y (Synthesis.sortByScoreDesc ys) ↔ _
    rw [mem_insertDesc, ih]
    simp [List.mem_cons]

theorem sortByScoreDesc_head_max {l : List ResearchResult} {x : ResearchResult}
    (hx : (Synthesis.sortByScoreDesc l).head? = some x) :
    ∀ y ∈ l, y.score ≤ x.score := by
  induction l generalizing x with
  | nil => simp [Synthesis.sortByScoreDesc] at hx
  | cons a t ih =>
    have hstep : Synthesis.sortByScoreDesc (a :: t) =
        Synthesis.insertDesc a (Synthesis.sortByScoreDesc t) := rfl
    cases hs : Synthesis.sortByScoreDesc t with
    | nil =>
      have ht : t = [] := by
        rw [List.eq_nil_iff_forall_not_mem]
        intro y hy
        have : y ∈ Synthesis.sortByScoreDesc t := mem_sortByScoreDesc.mpr hy
        rw [hs] at this
        simp at this
      subst ht
      rw [hstep, hs] at hx
      simp [Synthesis.insertDesc] at hx
      subst hx
      simp
    | cons b bs =>
      have hb : ∀ y ∈ t, y.score ≤ b.score := ih (by rw [hs]; rfl)
      rw [hstep, hs] at hx
      simp only [Synthesis.insertDesc] at hx
      split_ifs at hx with hcmp
      · -- head is `a`
        simp only [List.head?_cons, Option.some.injEq] at hx
        subst hx
        intro y hy
        rcases List.mem_cons.mp hy with rfl | hyt
        · exact le_refl _
        · exact le_trans (hb y hyt) hcmp
      · -- head stays `b`
        simp only [List.head?_cons, Option.some.injEq] at hx
        subst hx
        intro y hy
        rcases List.mem_cons.mp hy with rfl | hyt
        · exact le_of_not_le hcmp
        · exact hb y hyt

/-- The per-bucket guarantee of `selectBest`: a non-empty bucket produces a
selected candidate that is one of the rescored bucket members and whose
score dominates every rescored score of the bucket. -/
theorem selectBest_spec {g : List ResearchResult} (hg : g ≠ []) :
    ∃ sel, Synthesis.selectBest g = some sel ∧ sel ∈ g.map Synthesis.rescored ∧
      ∀ r ∈ g, Synthesis.scoreResult r ≤ sel.score := by
  obtain ⟨a, t, rfl⟩ := List.exists_cons_of_ne_nil hg
  have hne : Synthesis.sortByScoreDesc ((a :: t).map Synthesis.rescored) ≠ [] := by
    intro hnil
    have : Synthesis.rescored a ∈ Synthesis.sortByScoreDesc ((a :: t).map Synthesis.rescored) :=
      mem_sortByScoreDesc.mpr (by simp)
    rw [hnil] at this
    simp at this
  obtain ⟨sel, hsel⟩ := Option.ne_none_iff_exists'.mp (by
    simpa [Synthesis.selectBest, List.head?_eq_none_iff] using hne :
      Synthesis.selectBest (a :: t) ≠ none)
  refine ⟨sel, hsel, ?_, ?_⟩
  · have hmem : sel ∈ Synthesis.sortByScoreDesc ((a :: t).map Synthesis.rescored) :=
      List.mem_of_mem_head? (Option.mem_def.mpr hsel)
    exact mem_sortByScoreDesc.mp hmem
  · intro r hr
    have hmax := sortByScoreDesc_head_max (l := (a :: t).map Synthesis.rescored) (x := sel) hsel
    have : Synthesis.rescored r ∈ (a :: t).map Synthesis.rescored := List.mem_map_of_mem _ hr
    have := hmax _ this
    simpa [Synthesis.rescored] using this

theorem addToGroups_ok {results : List ResearchResult} {r : ResearchResult}
    {acc : List (String × List ResearchResult)}
    (h : GroupsOK results acc) (hr : r ∈ results) :
    GroupsOK results (Synthesis.addToGroups acc r) := by
  intro p hp
  unfold Synthesis.addToGroups at hp
  split_ifs at hp with hany
  · obtain ⟨q0, hq0, hq⟩ := List.mem_map.mp hp
    by_cases heq : q0.1 == r.agentType
    · rw [if_pos heq] at hq
      subst hq
      refine ⟨by simp, ?_⟩
      intro x hx
      rcases List.mem_append.mp hx with hx0 | hx1
      · exact (h q0 hq0).2 x hx0
      · simp only [List.mem_singleton] at hx1
        subst hx1
        exact ⟨(eq_of_beq heq).symm, hr⟩
    · rw [if_neg heq] at hq
      subst hq
      exact h q0 hq0
  · rcases List.mem_append.mp hp with hp0 | hp1
    · exact h p hp0
    · simp only [List.mem_singleton] at hp1
      subst hp1
      exact ⟨by simp, by intro x hx; simp only [List.mem_singleton] at hx; subst hx; exact ⟨rfl, hr⟩⟩

theorem groupByAgentType_ok (results : List ResearchResult) :
    GroupsOK results (Synthesis.groupByAgentType results) := by
  suffices h : ∀ (l : List ResearchResult) (acc : List (String × List ResearchResult)),
      (∀ x ∈ l, x ∈ results) → GroupsOK results acc →
      GroupsOK results (l.foldl Synthesis.addToGroups acc) by
    exact h results [] (fun x hx => hx) (fun p hp => by simp at hp)
  intro l
  induction l with
  | nil => intro acc _ hacc; exact hacc
  | cons r rest ih =>
    intro acc hl hacc
    exact ih (Synthesis.addToGroups acc r) (fun x hx => hl x (List.mem_cons_of_mem _ hx))
      (addToGroups_ok hacc (hl r (List.mem_cons_self r rest)))

/-- **C2**: for every candidate list and every bucket of the grouping, the
reducer selects exactly one candidate of that bucket, all bucket members
share the bucket's role identifier, and the selected candidate's score
dominates the (re-)scored value of every candidate of the bucket. -/
theorem C2_selection_picks_role_maximum :
    ∀ (results : List ResearchResult) (role : String) (g : List ResearchResult),
      (role, g) ∈ Synthesis.groupByAgentType results →
      ∃ sel, sel ∈ Synthesis.selectBestResults (Synthesis.groupByAgentType results) ∧
        Synthesis.selectBest g = some sel ∧
        sel ∈ g.map Synthesis.rescored ∧
        (∀ r ∈ g, r.agentType = role) ∧
        ∀ r ∈ g, Synthesis.scoreResult r ≤ sel.score := by
  intro results role g hmem
  have hok := groupByAgentType_ok results (role, g) hmem
  obtain ⟨sel, hsel, hselmem, hmax⟩ := selectBest_spec hok.1
  refine ⟨sel, ?_, hsel, hselmem, fun r hr => (hok.2 r hr).1, hmax⟩
  exact List.mem_filterMap.mpr ⟨(role, g), hmem, hsel⟩

theorem scoreResult_candidate3 : Synthesis.scoreResult candidate3 = 3 := by
  have h1 : candidate3.content.length = 11 := by decide
  have h2 : (Synthesis.extractCitationsFromContent candidate3.content).length = 0 := by decide
  have h3 : goCount candidate3.content.data "\n#".data = 0 := by decide
  have h4 : Synthesis.scanNums candidate3.content.data = 6 := by decide
  simp only [Synthesis.scoreResult, Synthesis.citationScore, h1, h2, h3, h4]
  norm_num

theorem scoreResult_candidate9 : Synthesis.scoreResult candidate9 = 9 := by
  have h1 : candidate9.content.length = 612 := by decide
  have h2 : (Synthesis.extractCitationsFromContent candidate9.content).length = 2 := by decide
  have h3 : goCount candidate9.content.data "\n#".data = 0 := by decide
  have h4 : Synthesis.scanNums candidate9.content.data = 0 := by decide
  simp only [Synthesis.scoreResult, Synthesis.citationScore, h1, h2, h3, h4]
  norm_num

theorem scoreResult_candidate5 : Synthesis.scoreResult candidate5 = 5 := by
  have h1 : candidate5.content.length = 501 := by decide
  have h2 : (Synthesis.extractCitationsFromContent candidate5.content).length = 0 := by decide
  have h3 : goCount candidate5.content.data "\n#".data = 0 := by decide
  have h4 : Synthesis.scanNums candidate5.content.data = 0 := by decide
  simp only [Synthesis.scoreResult, Synthesis.citationScore, h1, h2, h3, h4]
  norm_num

/-- Witness for C2 at the spec's example: one role with candidates scoring
3, 9 and 5; the selection hypothesis holds and the candidate scoring 9 is
the one selected. -/
theorem C2_selection_picks_role_maximum_witness :
    (∃ sel, sel ∈ Synthesis.selectBestResults
          (Synthesis.groupByAgentType [candidate3, candidate9, candidate5]) ∧
        Synthesis.selectBest [candidate3, candidate9, candidate5] = some sel ∧
        sel ∈ [candidate3, candidate9, candidate5].map Synthesis.rescored ∧
        (∀ r ∈ [candidate3, candidate9, candidate5], r.agentType = "fact-gatherer") ∧
        ∀ r ∈ [candidate3, candidate9, candidate5],
          Synthesis.scoreResult r ≤ sel.score) ∧
    (Synthesis.selectBest [candidate3, candidate9, candidate5]).map ResearchResult.score =
      some 9 := by
  constructor
  · exact C2_selection_picks_role_maximum [candidate3, candidate9, candidate5] "fact-gatherer"
      [candidate3, candidate9, candidate5] (by decide)
  · show ((Synthesis.sortByScoreDesc
        ([candidate3, candidate9, candidate5].map Synthesis.rescored)).head?).map
          ResearchResult.score = some 9
    simp only [List.map_cons, List.map_nil, Synthesis.sortByScoreDesc, List.foldr_cons,
      List.foldr_nil, Synthesis.insertDesc, Synthesis.rescored,
      scoreResult_candidate3, scoreResult_candidate9, scoreResult_candidate5]
    norm_num

theorem createdCandidate_score : createdCandidate.score = 1 / 2000 := by
  have h0 : createdCandidate.score =
      Orchestrator.calculateQualityScore longPlainContent
        (Orchestrator.orchExtractCitations 0 longPlainContent) := rfl
  have h1 : (goFields longPlainContent.data).length = 1 := by decide
  have h2 : (Orchestrator.orchExtractCitations 0 longPlainContent).length = 0 := by decide
  have h3 : goContains longPlainContent.data "##".data = false := by decide
  have h4 : goContains longPlainContent.data "**".data = false := by decide
  have h5 : goContains longPlainContent.data "\n\n".data = false := by decide
  have h6 : (Orchestrator.qualityIndicators.filter fun ind =>
      goContains (goToLower longPlainContent.data) ind.data).length = 0 := by decide
  rw [h0]
  simp only [Orchestrator.calculateQualityScore, h1, h2, h3, h4, h5, h6]
  norm_num

theorem createdCandidate_rank : Synthesis.scoreResult createdCandidate = 5 := by
  have h1 : createdCandidate.content.length = 501 := by decide
  have h2 : (Synthesis.extractCitationsFromContent createdCandidate.content).length = 0 := by
    decide
  have h3 : goCount createdCandidate.content.data "\n#".data = 0 := by decide
  have h4 : Synthesis.scanNums createdCandidate.content.data = 0 := by decide
  simp only [Synthesis.scoreResult, Synthesis.citationScore, h1, h2, h3, h4]
  norm_num

/-- **C9, counterexample**: a candidate created by the research unit with
score `1/2000` leaves the selection stage with its score field overwritten
to its ranking score 5 — the selection stage does mutate a candidate
field. -/
theorem C9_counterexample_selection_mutates_score :
    Synthesis.selectBestResults (Synthesis.groupByAgentType [createdCandidate]) =
      [{ createdCandidate with score := 5 }] ∧
    createdCandidate.score = 1 / 2000 ∧ (1 / 2000 : ℚ) ≠ 5 := by
  refine ⟨?_, createdCandidate_score, by norm_num⟩
  have hval : Synthesis.selectBestResults (Synthesis.groupByAgentType [createdCandidate]) =
      [Synthesis.rescored createdCandidate] := rfl
  rw [hval]
  simp [Synthesis.rescored, createdCandidate_rank]

/-- **C9, amended**: the selection stage mutates exactly one candidate
field — it overwrites `score` with the ranking score; every selected
candidate is one of the input candidates with all other fields (agent id,
role type, text, citations, token usage, timestamp, quality score)
unchanged. -/
theorem C9_selection_rewrites_only_score :
    ∀ (results : List ResearchResult) (sel : ResearchResult),
      sel ∈ Synthesis.selectBestResults (Synthesis.groupByAgentType results) →
      ∃ r ∈ results, sel = { r with score := Synthesis.scoreResult r } ∧
        sel.agentID = r.agentID ∧ sel.agentType = r.agentType ∧ sel.content = r.content ∧
        sel.citations = r.citations ∧ sel.tokensUsed = r.tokensUsed ∧
        sel.timestamp = r.timestamp ∧ sel.qualityScore = r.qualityScore := by
  intro results sel hsel
  obtain ⟨⟨role, g⟩, hg, hselg⟩ := List.mem_filterMap.mp hsel
  have hmem : sel ∈ g.map Synthesis.rescored :=
    mem_sortByScoreDesc.mp (List.mem_of_mem_head? (Option.mem_def.mpr hselg))
  obtain ⟨r, hr, rfl⟩ := List.mem_map.mp hmem
  have hok := groupByAgentType_ok results (role, g) hg
  exact ⟨r, (hok.2 r hr).2, rfl, rfl, rfl, rfl, rfl, rfl, rfl, rfl⟩

/-- Witness for the amended C9 at the concrete created candidate. -/
theorem C9_selection_rewrites_only_score_witness :
    ∃ r ∈ [createdCandidate],
      ({ createdCandidate with score := 5 } : ResearchResult) =
          { r with score := Synthesis.scoreResult r } ∧
        ({ createdCandidate with score := 5 } : ResearchResult).agentID = r.agentID ∧
        ({ createdCandidate with score := 5 } : ResearchResult).agentType = r.agentType ∧
        ({ createdCandidate with score := 5 } : ResearchResult).content = r.content ∧
        ({ createdCandidate with score := 5 } : ResearchResult).citations = r.citations ∧
        ({ createdCandidate with score := 5 } : ResearchResult).tokensUsed = r.tokensUsed ∧
        ({ createdCandidate with score := 5 } : ResearchResult).timestamp = r.timestamp ∧
        ({ createdCandidate with score := 5 } : ResearchResult).qualityScore = r.qualityScore :=
  C9_selection_rewrites_only_score [createdCandidate] { createdCandidate with score := 5 } (by
    have hval : Synthesis.selectBestResults (Synthesis.groupByAgentType [createdCandidate]) =
        [Synthesis.rescored createdCandidate] := rfl
    rw [hval]
    simp [Synthesis.rescored, createdCandidate_rank])

/-! ## Claim C3: citation deduplication across candidates -/

theorem foldl_dedupeStep_spec (l : List Citation) :
    ∀ (kept : List Citation) (seen : List String),
      l.foldl Synthesis.dedupeStep (kept, seen) =
        (kept ++ dedupKeys seen l, seen ++ (dedupKeys seen l).map Synthesis.keyOf) := by
  induction l with
  | nil => intro kept seen; simp [dedupKeys]
  | cons c cs ih =>
    intro kept seen
    by_cases hc : Synthesis.keyOf c ∈ seen
    · rw [List.foldl_cons,
        show Synthesis.dedupeStep (kept, seen) c = (kept, seen) by
          simp [Synthesis.dedupeStep, hc]]
      rw [ih kept seen]
      simp [dedupKeys, hc]
    · rw [List.foldl_cons,
        show Synthesis.dedupeStep (kept, seen) c =
            (kept ++ [c], seen ++ [Synthesis.keyOf c]) by
          simp [Synthesis.dedupeStep, hc]]
      rw [ih (kept ++ [c]) (seen ++ [Synthesis.keyOf c])]
      simp [dedupKeys, hc]

theorem synthExtractCitations_eq_dedupKeys (results : List ResearchResult) :
    Synthesis.synthExtractCitations results = dedupKeys [] (allExtractedCitations results) := by
  suffices h : ∀ (l : List ResearchResult) (acc : List Citation × List String),
      l.foldl (fun acc r =>
        (Synthesis.extractCitationsFromContent r.content).foldl Synthesis.dedupeStep acc) acc =
      (l.flatMap fun r => Synthesis.extractCitationsFromContent r.content).foldl
        Synthesis.dedupeStep acc by
    unfold Synthesis.synthExtractCitations allExtractedCitations
    rw [h results ([], [])]
    rw [foldl_dedupeStep_spec]
    simp
  intro l
  induction l with
  | nil => intro acc; simp
  | cons r rest ih =>
    intro acc
    rw [List.foldl_cons, ih, List.flatMap_cons, List.foldl_append]

theorem dedupKeys_sublist (l : List Citation) :
    ∀ seen, (dedupKeys seen l).Sublist l := by
  induction l with
  | nil => intro seen; simp [dedupKeys]
  | cons c cs ih =>
    intro seen
    unfold dedupKeys
    split_ifs with hc
    · exact (ih seen).cons c
    · exact (ih (seen ++ [Synthesis.keyOf c])).cons₂ c

theorem dedupKeys_keys_fresh (l : List Citation) :
    ∀ seen, ((dedupKeys seen l).map Synthesis.keyOf).Nodup ∧
      ∀ k ∈ (dedupKeys seen l).map Synthesis.keyOf, k ∉ seen := by
  induction l with
  | nil => intro seen; simp [dedupKeys]
  | cons c cs ih =>
    intro seen
    by_cases hc : Synthesis.keyOf c ∈ seen
    · rw [show dedupKeys seen (c :: cs) = dedupKeys seen cs by simp [dedupKeys, hc]]
      exact ih seen
    · rw [show dedupKeys seen (c :: cs) =
          c :: dedupKeys (seen ++ [Synthesis.keyOf c]) cs by simp [dedupKeys, hc]]
      obtain ⟨ihnodup, ihfresh⟩ := ih (seen ++ [Synthesis.keyOf c])
      have hknot : Synthesis.keyOf c ∉
          (dedupKeys (seen ++ [Synthesis.keyOf c]) cs).map Synthesis.keyOf := by
        intro hmem
        have := ihfresh _ hmem
        simp at this
      refine ⟨List.nodup_cons.mpr ⟨hknot, ihnodup⟩, ?_⟩
      intro k hk
      simp only [List.map_cons, List.mem_cons] at hk
      rcases hk with rfl | hk
      · exact hc
      · have := ihfresh k hk
        simp only [List.mem_append, not_or] at this
        exact this.1

theorem dedupKeys_covers (l : List Citation) :
    ∀ seen, ∀ c ∈ l, Synthesis.keyOf c ∈ seen ∨
      Synthesis.keyOf c ∈ (dedupKeys seen l).map Synthesis.keyOf := by
  induction l with
  | nil => intro seen c hc; simp at hc
  | cons a cs ih =>
    intro seen c hc
    by_cases ha : Synthesis.keyOf a ∈ seen
    · rw [show dedupKeys seen (a :: cs) = dedupKeys seen cs by simp [dedupKeys, ha]]
      rcases List.mem_cons.mp hc with rfl | hc'
      · exact Or.inl ha
      · exact ih seen c hc'
    · rw [show dedupKeys seen (a :: cs) =
          a :: dedupKeys (seen ++ [Synthesis.keyOf a]) cs by simp [dedupKeys, ha]]
      rcases List.mem_cons.mp hc with rfl | hc'
      · exact Or.inr (by simp)
      · rcases ih (seen ++ [Synthesis.keyOf a]) c hc' with h | h
        · rcases List.mem_append.mp h with h | h
          · exact Or.inl h
          · simp only [List.mem_singleton] at h
            exact Or.inr (by simp [h])
        · exact Or.inr (by simp [h])

theorem dedupKeys_first_wins (l : List Citation) :
    ∀ seen, ∀ c ∈ dedupKeys seen l,
      l.find? (fun d => Synthesis.keyOf d == Synthesis.keyOf c) = some c := by
  induction l with
  | nil => intro seen c hc; simp [dedupKeys] at hc
  | cons a cs ih =>
    intro seen c hc
    by_cases ha : Synthesis.keyOf a ∈ seen
    · rw [show dedupKeys seen (a :: cs) = dedupKeys seen cs by simp [dedupKeys, ha]] at hc
      -- `a` was dropped: its key is in `seen`, while every kept key is fresh
      have hfresh := (dedupKeys_keys_fresh cs seen).2
      have hne : ¬ Synthesis.keyOf a = Synthesis.keyOf c := by
        intro heq
        exact hfresh _ (List.mem_map_of_mem Synthesis.keyOf hc) (heq ▸ ha)
      rw [List.find?_cons_of_neg _ (by simpa using hne), ih seen c hc]
    · rw [show dedupKeys seen (a :: cs) =
          a :: dedupKeys (seen ++ [Synthesis.keyOf a]) cs by simp [dedupKeys, ha]] at hc
      rcases List.mem_cons.mp hc with rfl | hc'
      · exact List.find?_cons_of_pos _ (by simp)
      · have hfresh := (dedupKeys_keys_fresh cs (seen ++ [Synthesis.keyOf a])).2
        have hne : ¬ Synthesis.keyOf a = Synthesis.keyOf c := by
          intro heq
          have := hfresh _ (List.mem_map_of_mem Synthesis.keyOf hc')
          simp [heq] at this
        rw [List.find?_cons_of_neg _ (by simpa using hne), ih _ c hc']

/-- **C3, counterexample**: the dedupe key is the string concatenation
`source + url`, so the distinct pairs `("ab","c")` and `("a","bc")`
collide: the second record is dropped although its (source, url) pair —
with both components compared — never occurred earlier. -/
theorem C3_counterexample_concatenation_collision :
    (Synthesis.synthExtractCitations
        [plainResult "[ab](c)", plainResult "[a](bc)"]).map (fun c => (c.source, c.url)) =
      [("ab", "c")] ∧
    (allExtractedCitations [plainResult "[ab](c)", plainResult "[a](bc)"]).map
        (fun c => (c.source, c.url)) =
      [("ab", "c"), ("a", "bc")] ∧
    (("a", "bc") : String × String) ≠ ("ab", "c") := by
  refine ⟨by decide, by decide, by decide⟩

/-- **C3, amended**: dedupe across candidates keeps the first record of
each distinct *concatenated* key `source + url` (not of each pair): the
output is a sublist of the flattened records, its keys are distinct, every
extracted record's key is represented, and each kept record is the first
record carrying its key. -/
theorem C3_dedupe_by_concatenated_key :
    ∀ results : List ResearchResult,
      (Synthesis.synthExtractCitations results).Sublist (allExtractedCitations results) ∧
      ((Synthesis.synthExtractCitations results).map Synthesis.keyOf).Nodup ∧
      (∀ c ∈ allExtractedCitations results,
        Synthesis.keyOf c ∈ (Synthesis.synthExtractCitations results).map Synthesis.keyOf) ∧
      ∀ c ∈ Synthesis.synthExtractCitations results,
        (allExtractedCitations results).find?
          (fun d => Synthesis.keyOf d == Synthesis.keyOf c) = some c := by
  intro results
  rw [synthExtractCitations_eq_dedupKeys]
  refine ⟨dedupKeys_sublist _ [], (dedupKeys_keys_fresh _ []).1, ?_, dedupKeys_first_wins _ []⟩
  intro c hc
  rcases dedupKeys_covers (allExtractedCitations results) [] c hc with h | h
  · simp at h
  · exact h

/-- Witness for the amended C3 at the two-candidate collision input. -/
theorem C3_dedupe_by_concatenated_key_witness :
    (Synthesis.synthExtractCitations [plainResult "[ab](c)", plainResult "[a](bc)"]).Sublist
        (allExtractedCitations [plainResult "[ab](c)", plainResult "[a](bc)"]) ∧
      ((Synthesis.synthExtractCitations [plainResult "[ab](c)", plainResult "[a](bc)"]).map
          Synthesis.keyOf).Nodup ∧
      (∀ c ∈ allExtractedCitations [plainResult "[ab](c)", plainResult "[a](bc)"],
        Synthesis.keyOf c ∈
          (Synthesis.synthExtractCitations
            [plainResult "[ab](c)", plainResult "[a](bc)"]).map Synthesis.keyOf) ∧
      ∀ c ∈ Synthesis.synthExtractCitations [plainResult "[ab](c)", plainResult "[a](bc)"],
        (allExtractedCitations [plainResult "[ab](c)", plainResult "[a](bc)"]).find?
          (fun d => Synthesis.keyOf d == Synthesis.keyOf c) = some c :=
  C3_dedupe_by_concatenated_key [plainResult "[ab](c)", plainResult "[a](bc)"]

/-! ## Claim C8: the citation term of the ranking score has no cap -/

theorem scanLinksF_nil : ∀ f, Synthesis.scanLinksF f [] = [] := by
  intro f
  cases f <;> rfl

theorem scanLinksF_block (f : Nat) (rest : List Char) :
    Synthesis.scanLinksF (f + 1) (linkBlock ++ rest) =
      ("a", "b") :: Synthesis.scanLinksF f rest := rfl

theorem repeatLink_zero : repeatLink 0 = [] := rfl

theorem repeatLink_succ (n : Nat) : repeatLink (n + 1) = linkBlock ++ repeatLink n := by
  simp [repeatLink, List.replicate_succ]

theorem repeatLink_length (n : Nat) : (repeatLink n).length = 6 * n := by
  induction n with
  | zero => rfl
  | succ n ih =>
    rw [repeatLink_succ, List.length_append, ih]
    simp [linkBlock]
    omega

theorem scanLinksF_repeatLink : ∀ (n f : Nat), n ≤ f →
    Synthesis.scanLinksF f (repeatLink n) = List.replicate n ("a", "b") := by
  intro n
  induction n with
  | zero => intro f _; rw [repeatLink_zero, scanLinksF_nil]; rfl
  | succ n ih =>
    intro f hf
    obtain ⟨f', rfl⟩ : ∃ f', f = f' + 1 := ⟨f - 1, by omega⟩
    rw [repeatLink_succ, scanLinksF_block, ih f' (by omega)]
    rfl

theorem scanAcadF_nil : ∀ f, Synthesis.scanAcadF f [] = [] := by
  intro f
  cases f <;> rfl

theorem scanAcadF_block (f : Nat) (rest : List Char) :
    Synthesis.scanAcadF (f + 6) (linkBlock ++ rest) = Synthesis.scanAcadF f rest := rfl

theorem scanAcadF_repeatLink : ∀ (n f : Nat), 6 * n ≤ f →
    Synthesis.scanAcadF f (repeatLink n) = [] := by
  intro n
  induction n with
  | zero => intro f _; rw [repeatLink_zero, scanAcadF_nil]
  | succ n ih =>
    intro f hf
    obtain ⟨f', rfl⟩ : ∃ f', f = f' + 6 := ⟨f - 6, by omega⟩
    rw [repeatLink_succ, scanAcadF_block, ih f' (by omega)]

theorem extractCitations_repeatLink (n : Nat) :
    (Synthesis.extractCitationsFromContent (String.mk (repeatLink n))).length = n := by
  have h1 : Synthesis.scanLinks (repeatLink n) = List.replicate n ("a", "b") := by
    unfold Synthesis.scanLinks
    exact scanLinksF_repeatLink n _ (by rw [repeatLink_length]; omega)
  have h2 : Synthesis.scanAcad (repeatLink n) = [] := by
    unfold Synthesis.scanAcad
    exact scanAcadF_repeatLink n _ (by rw [repeatLink_length])
  have hdata : (String.mk (repeatLink n)).data = repeatLink n := rfl
  simp [Synthesis.extractCitationsFromContent, hdata, h1, h2]

theorem citationScore_repeatLink (n : Nat) :
    Synthesis.citationScore (String.mk (repeatLink n)) = 2 * n := by
  unfold Synthesis.citationScore
  rw [extractCitations_repeatLink]
  ring

/-- **C8, counterexample**: no fixed bound caps the citation contribution
of the ranking score — a text of `⌈B⌉ + 1` link blocks pushes the
contribution past any proposed bound `B`. -/
theorem C8_counterexample_no_citation_cap :
    ¬ ∃ B : ℚ, ∀ content : String, Synthesis.citationScore content ≤ B := by
  rintro ⟨B, hB⟩
  have ht : B ≤ ((⌈B⌉.toNat : ℚ)) := by
    calc B ≤ ((⌈B⌉ : ℤ) : ℚ) := Int.le_ceil B
    _ ≤ ((⌈B⌉.toNat : ℚ)) := by exact_mod_cast Int.self_le_toNat _
  have h2 := hB (String.mk (repeatLink (⌈B⌉.toNat + 1)))
  rw [citationScore_repeatLink] at h2
  have hge : (0 : ℚ) ≤ (⌈B⌉.toNat : ℚ) := Nat.cast_nonneg _
  push_cast at h2
  linarith

/-- **C8, amended**: the citation contribution of the best-of-N ranking
score is proportional to the extracted-citation count (2 points per
citation) but *not* capped: it exceeds every fixed bound on suitable
texts.  (The capped citation credit exists only in the separate
`calculateQualityScore` heuristic.) -/
theorem C8_citation_contribution_proportional_uncapped :
    (∀ content : String, Synthesis.citationScore content =
      2 * ((Synthesis.extractCitationsFromContent content).length : ℚ)) ∧
    ∀ B : ℚ, ∃ content : String, B < Synthesis.citationScore content := by
  constructor
  · intro content
    unfold Synthesis.citationScore
    ring
  · intro B
    refine ⟨String.mk (repeatLink (⌈B⌉.toNat + 1)), ?_⟩
    rw [citationScore_repeatLink]
    have ht : B ≤ ((⌈B⌉.toNat : ℚ)) := by
      calc B ≤ ((⌈B⌉ : ℤ) : ℚ) := Int.le_ceil B
      _ ≤ ((⌈B⌉.toNat : ℚ)) := by exact_mod_cast Int.self_le_toNat _
    have hge : (0 : ℚ) ≤ (⌈B⌉.toNat : ℚ) := Nat.cast_nonneg _
    push_cast
    linarith

/-! ## Claim C10: quality aggregation over an empty candidate list -/

theorem goFloatAddNanLeft (y : GoFloat) : GoFloat.nan.add y = .nan := by
  cases y <;> rfl

theorem goFloatMulNanLeft (y : GoFloat) : GoFloat.nan.mul y = .nan := by
  cases y <;> rfl

theorem goFloatGtNanLeft (y : GoFloat) : GoFloat.nan.gt y = false := by
  cases y <;> rfl

theorem goFloatDivZeroZero : (GoFloat.fin 0).div (GoFloat.fin 0) = .nan := by
  simp [GoFloat.div]

/-- **C10**: `calculateEssayQuality` has no guard against an empty
candidate list: with zero candidates (hence an essay without citations,
as an all-failed run produces) the `DepthScore` division
`sum/candidateCount` and the `CitationQuality` division by
`candidateCount × 2` are IEEE `0/0`, so `DepthScore`, `CitationQuality`
and the weighted `OverallScore` all come out NaN — not-a-number values,
not an error. -/
theorem C10_empty_candidates_yield_nan :
    ∀ (agents : List Agent) (essay : Essay), essay.citations = [] →
      (Orchestrator.calculateEssayQuality agents essay []).depthScore = GoFloat.nan ∧
      (Orchestrator.calculateEssayQuality agents essay []).citationQuality = GoFloat.nan ∧
      (Orchestrator.calculateEssayQuality agents essay []).overallScore = GoFloat.nan := by
  intro agents essay h
  simp only [Orchestrator.calculateEssayQuality, h, List.map_nil, List.dedup_nil,
    List.length_nil, List.sum_nil, Nat.zero_mul, Nat.cast_zero]
  simp [goFloatDivZeroZero, goFloatGtNanLeft, goFloatMulNanLeft, GoFloat.add_nan_right,
    goFloatAddNanLeft]

/-- Witness for C10: the concrete empty run. -/
theorem C10_empty_candidates_yield_nan_witness :
    (Orchestrator.calculateEssayQuality []
        { title := "", content := "", citations := [], metadata := {} } []).depthScore =
      GoFloat.nan ∧
    (Orchestrator.calculateEssayQuality []
        { title := "", content := "", citations := [], metadata := {} } []).citationQuality =
      GoFloat.nan ∧
    (Orchestrator.calculateEssayQuality []
        { title := "", content := "", citations := [], metadata := {} } []).overallScore =
      GoFloat.nan :=
  C10_empty_candidates_yield_nan []
    { title := "", content := "", citations := [], metadata := {} } rfl

end EssayForge
